import Mathlib

/-!
Shallow embedding of the booking-lifecycle and content-moderation core of the
photo-showcase-api repository.  Each definition translates one controller
function or model default from the JavaScript source:

* `updateBooking`, `cancelBooking`, `createBooking` — src/controllers/bookingController.js
* `acceptBooking`, `assignBooking`, `adminSetStatus` — the bookings router
  (PATCH /:id/accept, /:id/assign, /:id/status)
* `moderateContent`, flag/restore updates — src/controllers/adminController.js
* `createReview` — src/controllers/reviewController.js with the Review model defaults
* `createPhoto`, `updatePhoto`, `deletePhoto` — src/controllers/photoController.js
* `updateReview`, `deleteReview` — src/controllers/reviewController.js
* `bookingStatusEnum` — the Booking model's status ENUM

Database rows are records, `findByPk` results are `Option`-valued arguments,
and each HTTP error response is a constructor of `HttpError`.
-/

namespace PhotoShowcase

/-- An authenticated request subject, as attached by the auth middleware:
`req.user` carries the subject id and role string. -/
structure AuthUser where
  id : Nat
  role : String
deriving DecidableEq, Repr

/-- A stored user row; `createBooking` looks the target photographer up by
id and role. -/
structure StoredUser where
  id : Nat
  role : String
deriving DecidableEq, Repr

/-- A Booking row.  `userId` is the client owner (the field the controller
checks), `photographerId` is nullable until assignment.  The status column is
kept as a string because the controller compares and writes raw string
literals. -/
structure Booking where
  userId : Nat
  photographerId : Option Nat
  status : String
  date : Option String
  time : Option String
  location : Option String
  notes : Option String
  package : Option String
  additionalDetails : Option String
deriving DecidableEq, Repr

/-- The request body of a booking mutation (`req.body`): every field is
optional; `some v` means the key is present with value `v`. -/
structure BookingPatch where
  status : Option String := none
  date : Option String := none
  time : Option String := none
  location : Option String := none
  notes : Option String := none
  package : Option String := none
  photographerId : Option Nat := none
deriving DecidableEq, Repr

/-- The typed error responses the controllers produce. -/
inductive HttpError where
  | notFound (msg : String)
  | forbidden (msg : String)
  | badRequest (msg : String)
deriving DecidableEq, Repr

/-- The status ENUM of the Booking model (src/models/Booking.js):
`ENUM('pending', 'confirmed', 'completed', 'cancelled')`. -/
def bookingStatusEnum : List String :=
  ["pending", "confirmed", "completed", "cancelled"]

/-- The `validStatuses` list hard-coded in `updateBooking`
(bookingController.js line 140).  Note the single-l `"canceled"`. -/
def validStatuses : List String :=
  ["pending", "confirmed", "completed", "canceled"]

/-- `booking.userId === req.user.id`. -/
def isClientOf (u : AuthUser) (b : Booking) : Bool :=
  b.userId == u.id

/-- `booking.photographerId === req.user.id`. -/
def isPhotographerOf (u : AuthUser) (b : Booking) : Bool :=
  b.photographerId == some u.id

/-- `req.user.role === 'admin'`. -/
def isAdminUser (u : AuthUser) : Bool :=
  u.role == "admin"

/-- The shared guard `!isClient && !isPhotographer && !isAdmin` of
`updateBooking` and `cancelBooking`. -/
def notAuthorized (u : AuthUser) (b : Booking) : Bool :=
  !isClientOf u b && !isPhotographerOf u b && !isAdminUser u

/-- JavaScript truthiness of an optional string (`if (req.body.status)`):
absent and the empty string are falsy. -/
def strTruthy : Option String → Bool
  | none => false
  | some s => !(s == "")

/-- JavaScript truthiness of a nullable integer column
(`if (booking.photographerId)`): null and 0 are falsy. -/
def natTruthy : Option Nat → Bool
  | none => false
  | some n => !(n == 0)

/-- Merge one optional patch field into an optional column: a present key
overwrites, an absent key leaves the column alone. -/
def updField (new old : Option String) : Option String :=
  match new with
  | some v => some v
  | none => old

/-- The client branch of `updateBooking`: `status` is destructured away and
only `['date', 'location', 'notes', 'package']` survive the filter. -/
def clientFilter (body : BookingPatch) : BookingPatch :=
  { status := none, date := body.date, time := none, location := body.location,
    notes := body.notes, package := body.package, photographerId := none }

/-- The photographer branch of `updateBooking`: only
`['status', 'notes']` survive the filter. -/
def photographerFilter (body : BookingPatch) : BookingPatch :=
  { status := body.status, date := none, time := none, location := none,
    notes := body.notes, package := none, photographerId := none }

/-- `booking.update(updateData)`: apply every present field of the filtered
patch to the row. -/
def applyPatch (b : Booking) (d : BookingPatch) : Booking :=
  { b with
    status := d.status.getD b.status,
    date := updField d.date b.date,
    time := updField d.time b.time,
    location := updField d.location b.location,
    notes := updField d.notes b.notes,
    package := updField d.package b.package,
    photographerId :=
      match d.photographerId with
      | some p => some p
      | none => b.photographerId }

/-- `updateBooking` (bookingController.js lines 114-227), with the row
`findByPk` returned passed in as `b?`. -/
def updateBooking (u : AuthUser) (b? : Option Booking) (body : BookingPatch) :
    Except HttpError Booking :=
  match b? with
  | none => .error (.notFound "Booking not found")
  | some b =>
    let isClient := isClientOf u b
    let isPhotographer := isPhotographerOf u b
    let isAdmin := isAdminUser u
    if notAuthorized u b then
      .error (.forbidden "Not authorized to update this booking")
    else if strTruthy body.status && !(validStatuses.contains (body.status.getD "")) then
      .error (.badRequest "Invalid status value")
    else if body.status == some "completed" && !(isPhotographer || isAdmin) then
      .error (.forbidden "Only photographers and admins can mark bookings as completed")
    else if body.status == some "completed" && !(b.status == "confirmed") then
      .error (.badRequest "Only confirmed bookings can be marked as completed")
    else
      let updateData :=
        if isClient && !isAdmin then clientFilter body
        else if isPhotographer && !isAdmin then photographerFilter body
        else if isAdmin then body
        else ({} : BookingPatch)
      .ok (applyPatch b updateData)

/-- `cancelBooking` (bookingController.js lines 230-284).  A success carries
the row returned as `data` and the response `message`. -/
def cancelBooking (u : AuthUser) (b? : Option Booking) :
    Except HttpError (Booking × String) :=
  match b? with
  | none => .error (.notFound "Booking not found")
  | some b =>
    if notAuthorized u b then
      .error (.forbidden "Not authorized to cancel this booking")
    else if b.status == "canceled" then
      .ok (b, "Booking was already cancelled")
    else if b.status == "completed" && !isAdminUser u then
      .error (.badRequest "Cannot cancel a completed booking")
    else
      .ok ({ b with status := "canceled" }, "Booking cancelled successfully")

/-- `User.findOne({ where: { id: req.body.photographerId, role: 'photographer' } })`. -/
def findPhotographer (users : List StoredUser) (pid? : Option Nat) : Option StoredUser :=
  match pid? with
  | none => none
  | some pid => users.find? (fun usr => usr.id == pid && usr.role == "photographer")

/-- `createBooking` (bookingController.js lines 5-64): requires the target
photographer to exist, rejects self-booking, and creates the row with
`status: 'pending'` forced while `photographerId` comes from the body. -/
def createBooking (users : List StoredUser) (u : AuthUser) (body : BookingPatch) :
    Except HttpError Booking :=
  match findPhotographer users body.photographerId with
  | none => .error (.notFound "Photographer not found")
  | some _ =>
    if body.photographerId == some u.id then
      .error (.badRequest "You cannot book yourself")
    else
      .ok { userId := u.id, photographerId := body.photographerId,
            status := "pending", date := body.date, time := body.time,
            location := body.location, notes := body.notes,
            package := body.package, additionalDetails := none }

/-- `PATCH /api/bookings/:id/accept` (bookings router): photographer
self-service acceptance, guarded only by the truthiness of the stored
`photographerId`. -/
def acceptBooking (u : AuthUser) (b? : Option Booking) (details : Option String) :
    Except HttpError Booking :=
  match b? with
  | none => .error (.notFound "Booking not found")
  | some b =>
    if natTruthy b.photographerId then
      .error (.badRequest "Booking already assigned to a photographer")
    else
      let b1 := { b with photographerId := some u.id, status := "confirmed" }
      let noteText := (b1.additionalDetails.getD "null") ++ "\n\nPhotographer note: " ++ details.getD ""
      let b2 :=
        if strTruthy details then
          { b1 with additionalDetails := some noteText }
        else b1
      .ok b2

/-- `PATCH /api/bookings/:id/assign` (bookings router, adminOnly):
unconditionally writes `photographerId` and forces `status = 'confirmed'`. -/
def assignBooking (b? : Option Booking) (pid : Option Nat) :
    Except HttpError Booking :=
  match b? with
  | none => .error (.notFound "Booking not found")
  | some b => .ok { b with photographerId := pid, status := "confirmed" }

/-- `PATCH /api/bookings/:id/status` (bookings router, adminOnly):
`booking.status = req.body.status; await booking.save()` with no check at
all on the current status or the new value. -/
def adminSetStatus (b? : Option Booking) (newStatus : String) :
    Except HttpError Booking :=
  match b? with
  | none => .error (.notFound "Booking not found")
  | some b => .ok { b with status := newStatus }

/-- One request against the single booking under consideration. -/
inductive BookingOp where
  | create (u : AuthUser) (body : BookingPatch)
  | update (u : AuthUser) (body : BookingPatch)
  | accept (u : AuthUser) (details : Option String)
  | assign (pid : Option Nat)
  | cancel (u : AuthUser)
  | setStatus (s : String)
deriving DecidableEq, Repr

/-- Whether an operation is the admin status-change route. -/
def BookingOp.isSetStatus : BookingOp → Bool
  | .setStatus _ => true
  | _ => false

/-- Apply one request to the stored row (`none` = row does not exist yet);
a failed request leaves the store untouched. -/
def stepBooking (users : List StoredUser) (st : Option Booking) :
    BookingOp → Option Booking
  | .create u body =>
    match createBooking users u body with
    | .ok b => some b
    | .error _ => st
  | .update u body =>
    match updateBooking u st body with
    | .ok b => some b
    | .error _ => st
  | .accept u d =>
    match acceptBooking u st d with
    | .ok b => some b
    | .error _ => st
  | .assign pid =>
    match assignBooking st pid with
    | .ok b => some b
    | .error _ => st
  | .cancel u =>
    match cancelBooking u st with
    | .ok bm => some bm.1
    | .error _ => st
  | .setStatus s =>
    match adminSetStatus st s with
    | .ok b => some b
    | .error _ => st

/-- Run a sequence of requests. -/
def runOps (users : List StoredUser) (st : Option Booking) :
    List BookingOp → Option Booking
  | [] => st
  | op :: ops => runOps users (stepBooking users st op) ops

/-- Every intermediate store state along a run, the initial one included. -/
def traceStates (users : List StoredUser) (st : Option Booking) :
    List BookingOp → List (Option Booking)
  | [] => [st]
  | op :: ops => st :: traceStates users (stepBooking users st op) ops

/-- Whether the stored row exists and has the given status. -/
def statusIs (st : Option Booking) (s : String) : Bool :=
  match st with
  | some b => b.status == s
  | none => false

/-- A Review row (src/models/Review.js), with the model's column defaults:
`isModerated` false, `status` ENUM('pending','approved','rejected') default
'pending', `isVisible` true, `needsReview` false. -/
structure Review where
  userId : Nat
  photoId : Nat
  rating : Nat
  comment : String
  isModerated : Bool
  status : String
  isVisible : Bool
  needsReview : Bool
deriving DecidableEq, Repr

/-- A Photos row (src/models/Photos.js), same moderation columns and
defaults as Review. -/
structure Photo where
  title : String
  description : String
  imageUrl : String
  category : String
  photographerId : Nat
  isModerated : Bool
  status : String
  isVisible : Bool
  needsReview : Bool
deriving DecidableEq, Repr

/-- The `review.update({...})` issued by `moderateContent` on `action ===
'flag'` (adminController.js lines 84-89). -/
def flagReview (r : Review) : Review :=
  { r with needsReview := true, isVisible := false,
           status := "pending", isModerated := false }

/-- The `review.update({...})` issued by `moderateContent` on `action ===
'restore'` (adminController.js lines 91-96). -/
def restoreReview (r : Review) : Review :=
  { r with needsReview := false, isVisible := true,
           status := "approved", isModerated := true }

/-- The `photo.update({...})` issued by `moderateContent` on `action ===
'flag'` (adminController.js lines 111-116). -/
def flagPhoto (p : Photo) : Photo :=
  { p with needsReview := true, isVisible := false,
           status := "pending", isModerated := false }

/-- The `photo.update({...})` issued by `moderateContent` on `action ===
'restore'` (adminController.js lines 118-123). -/
def restorePhoto (p : Photo) : Photo :=
  { p with needsReview := false, isVisible := true,
           status := "approved", isModerated := true }

/-- The persistent content tables, keyed by primary key. -/
structure ContentStore where
  reviews : List (Nat × Review)
  photos : List (Nat × Photo)
deriving DecidableEq, Repr

/-- `findByPk` over an association list. -/
def lookupById {α : Type} (l : List (Nat × α)) (id : Nat) : Option α :=
  (l.find? (fun p => p.1 == id)).map Prod.snd

/-- Overwrite the row with the given key. -/
def setById {α : Type} (l : List (Nat × α)) (id : Nat) (a : α) : List (Nat × α) :=
  l.map (fun p => if p.1 == id then (p.1, a) else p)

/-- `destroy()`: remove the row with the given key. -/
def removeById {α : Type} (l : List (Nat × α)) (id : Nat) : List (Nat × α) :=
  l.filter (fun p => !(p.1 == id))

/-- The success message `moderateContent` builds. -/
def moderationMessage (contentType action : String) : String :=
  if action == "restore" then contentType ++ " has been restored successfully"
  else contentType ++ " has been " ++ action ++ "ed successfully"

/-- `moderateContent` (adminController.js lines 61-157): the action check
runs first, then the switch on `contentType` with a default branch, and only
then is a row looked up and mutated. -/
def moderateContent (store : ContentStore) (id : Nat) (contentType action : String) :
    Except HttpError (ContentStore × String) :=
  if !(["delete", "flag", "restore"].contains action) then
    .error (.badRequest "Action must be either delete, flag, or restore")
  else if contentType == "review" then
    match lookupById store.reviews id with
    | none => .error (.notFound "Review not found")
    | some r =>
      let store' :=
        if action == "delete" then { store with reviews := removeById store.reviews id }
        else if action == "flag" then { store with reviews := setById store.reviews id (flagReview r) }
        else { store with reviews := setById store.reviews id (restoreReview r) }
      .ok (store', moderationMessage contentType action)
  else if contentType == "photo" then
    match lookupById store.photos id with
    | none => .error (.notFound "Photo not found")
    | some p =>
      let store' :=
        if action == "delete" then { store with photos := removeById store.photos id }
        else if action == "flag" then { store with photos := setById store.photos id (flagPhoto p) }
        else { store with photos := setById store.photos id (restorePhoto p) }
      .ok (store', moderationMessage contentType action)
  else
    .error (.badRequest "Content type must be either review or photo")

/-- The stored tables after a `moderateContent` request: a failed request
leaves them untouched. -/
def moderateRun (store : ContentStore) (id : Nat) (contentType action : String) :
    ContentStore :=
  match moderateContent store id contentType action with
  | .ok sm => sm.1
  | .error _ => store

/-- The body of a review-creation request; the spread `{...req.body, userId,
photoId}` lets a present key override the model defaults, so the moderation
columns appear here as optional extras. -/
structure ReviewBody where
  rating : Nat
  comment : String
  isModerated : Option Bool := none
  status : Option String := none
  isVisible : Option Bool := none
  needsReview : Option Bool := none
deriving DecidableEq, Repr

/-- `createReview` (reviewController.js lines 6-25): `Review.create` with the
body spread and the model defaults filling the absent columns. -/
def createReview (u : AuthUser) (photoId : Nat) (body : ReviewBody) : Review :=
  { userId := u.id, photoId := photoId, rating := body.rating,
    comment := body.comment,
    isModerated := body.isModerated.getD false,
    status := body.status.getD "pending",
    isVisible := body.isVisible.getD true,
    needsReview := body.needsReview.getD false }

/-- The fields `createPhoto` reads from `req.body`. -/
structure PhotoBody where
  title : String
  description : Option String := none
  category : String
deriving DecidableEq, Repr

/-- `createPhoto` (photoController.js lines 8-96): after the file and field
checks, `Photos.create` sets `isVisible: true, needsReview: false` explicitly
while `status` and `isModerated` fall back to the model defaults
(`'pending'` and `false`). -/
def createPhoto (u : AuthUser) (hasFile : Bool) (body : PhotoBody) (imageUrl : String) :
    Except HttpError Photo :=
  if !hasFile then
    .error (.badRequest "No image file provided")
  else if body.title == "" || body.category == "" then
    .error (.badRequest "Title and category are required")
  else
    .ok { title := body.title, description := body.description.getD "",
          imageUrl := imageUrl, category := body.category,
          photographerId := u.id, isModerated := false, status := "pending",
          isVisible := true, needsReview := false }

/-- The body of a `updatePhoto` request. -/
structure PhotoPatch where
  title : Option String := none
  description : Option String := none
  category : Option String := none
  imageUrl : Option String := none
deriving DecidableEq, Repr

/-- `photo.update(req.body)`. -/
def applyPhotoPatch (p : Photo) (d : PhotoPatch) : Photo :=
  { p with title := d.title.getD p.title,
           description := d.description.getD p.description,
           category := d.category.getD p.category,
           imageUrl := d.imageUrl.getD p.imageUrl }

/-- `updatePhoto` (photoController.js lines 220-252): the only gate after
`findByPk` is `photo.photographerId !== req.user.id`, with no role branch. -/
def updatePhoto (u : AuthUser) (p? : Option Photo) (body : PhotoPatch) :
    Except HttpError Photo :=
  match p? with
  | none => .error (.notFound "Photo not found")
  | some p =>
    if !(p.photographerId == u.id) then
      .error (.forbidden "Not authorized to update this photo")
    else
      .ok (applyPhotoPatch p body)

/-- `deletePhoto` (photoController.js lines 254-286): same owner-only gate. -/
def deletePhoto (u : AuthUser) (p? : Option Photo) : Except HttpError Unit :=
  match p? with
  | none => .error (.notFound "Photo not found")
  | some p =>
    if !(p.photographerId == u.id) then
      .error (.forbidden "Not authorized to delete this photo")
    else
      .ok ()

/-- The mutable fields of a review-update request. -/
structure ReviewPatch where
  rating : Option Nat := none
  comment : Option String := none
deriving DecidableEq, Repr

/-- `review.update(req.body)`. -/
def applyReviewPatch (r : Review) (d : ReviewPatch) : Review :=
  { r with rating := d.rating.getD r.rating,
           comment := d.comment.getD r.comment }

/-- `updateReview` (reviewController.js lines 67-98): owner-only gate
`review.userId !== req.user.id`, no role branch. -/
def updateReview (u : AuthUser) (r? : Option Review) (body : ReviewPatch) :
    Except HttpError Review :=
  match r? with
  | none => .error (.notFound "Review not found")
  | some r =>
    if !(r.userId == u.id) then
      .error (.forbidden "Not authorized to update this review")
    else
      .ok (applyReviewPatch r body)

/-- `deleteReview` (reviewController.js lines 101-132): same owner-only gate. -/
def deleteReview (u : AuthUser) (r? : Option Review) : Except HttpError Unit :=
  match r? with
  | none => .error (.notFound "Review not found")
  | some r =>
    if !(r.userId == u.id) then
      .error (.forbidden "Not authorized to delete this review")
    else
      .ok ()

/-! ## Theorems -/

/-- C7: `assign` on an existing booking unconditionally sets `photographerId`
to the given photographer and forces `status = 'confirmed'`, whatever the
current status (the row is universally quantified, so 'completed' and
'cancelled' starting states are covered); a missing booking id is the only
failure, with NotFound. -/
theorem assign_forces_confirmed_unconditionally :
    ∀ (b : Booking) (pid : Option Nat),
      assignBooking (some b) pid
        = .ok { b with photographerId := pid, status := "confirmed" }
      ∧ assignBooking none pid = .error (.notFound "Booking not found") := by
  intro b pid
  exact ⟨rfl, rfl⟩

/-- C3: `accept` succeeds exactly when the stored `photographerId` is null
(given that stored and caller ids are nonzero, as server-generated ids are);
on success it sets `photographerId` to the caller and status to 'confirmed',
and any later `accept` by another photographer fails AlreadyAssigned. -/
theorem accept_only_when_unassigned :
    ∀ (uA uB : AuthUser) (b : Booking) (dA dB : Option String),
      b.photographerId ≠ some 0 → uA.id ≠ 0 →
      ((∃ b', acceptBooking uA (some b) dA = .ok b') ↔ b.photographerId = none)
      ∧ (∀ b', acceptBooking uA (some b) dA = .ok b' →
          b'.photographerId = some uA.id ∧ b'.status = "confirmed"
          ∧ acceptBooking uB (some b') dB
              = .error (.badRequest "Booking already assigned to a photographer"))
      ∧ (b.photographerId ≠ none →
          acceptBooking uA (some b) dA
            = .error (.badRequest "Booking already assigned to a photographer")) := by
  intro uA uB b dA dB hnz hA
  match hb : b.photographerId with
  | none =>
    refine ⟨⟨fun _ => rfl, fun _ => ?_⟩, fun b' hok => ?_, fun hne => absurd rfl hne⟩
    · simp [acceptBooking, natTruthy, hb]
    · have hacc : acceptBooking uA (some b) dA = .ok b' := hok
      simp only [acceptBooking, natTruthy, hb] at hacc
      by_cases hd : strTruthy dA = true
      · simp only [hd, if_true] at hacc
        cases hacc
        refine ⟨rfl, rfl, ?_⟩
        simp [acceptBooking, natTruthy, hA]
      · simp only [hd] at hacc
        simp only [Bool.false_eq_true, if_false] at hacc
        cases hacc
        refine ⟨rfl, rfl, ?_⟩
        simp [acceptBooking, natTruthy, hA]
  | some n =>
    have hn : n ≠ 0 := by
      intro h
      exact hnz (by simp [hb, h])
    have herr : acceptBooking uA (some b) dA
        = .error (.badRequest "Booking already assigned to a photographer") := by
      simp [acceptBooking, natTruthy, hb, hn]
    refine ⟨⟨fun ⟨b', hok⟩ => ?_, fun h => by simp [hb] at h⟩, fun b' hok => ?_, fun _ => herr⟩
    · rw [herr] at hok
      cases hok
    · rw [herr] at hok
      cases hok

/-- Witness for C3 at a concrete input: photographer 5 accepts an unassigned
pending booking, then photographer 6 is rejected AlreadyAssigned. -/
theorem accept_only_when_unassigned_witness :
    acceptBooking ⟨5, "photographer"⟩
        (some { userId := 1, photographerId := none, status := "pending",
                date := none, time := none, location := none, notes := none,
                package := none, additionalDetails := none }) none
      = .ok { userId := 1, photographerId := some 5, status := "confirmed",
              date := none, time := none, location := none, notes := none,
              package := none, additionalDetails := none }
    ∧ acceptBooking ⟨6, "photographer"⟩
        (some { userId := 1, photographerId := some 5, status := "confirmed",
                date := none, time := none, location := none, notes := none,
                package := none, additionalDetails := none }) none
      = .error (.badRequest "Booking already assigned to a photographer") := by
  have h := accept_only_when_unassigned ⟨5, "photographer"⟩ ⟨6, "photographer"⟩
      { userId := 1, photographerId := none, status := "pending",
        date := none, time := none, location := none, notes := none,
        package := none, additionalDetails := none } none none
      (by decide) (by decide)
  have hok : acceptBooking ⟨5, "photographer"⟩
      (some { userId := 1, photographerId := none, status := "pending",
              date := none, time := none, location := none, notes := none,
              package := none, additionalDetails := none }) none
      = .ok { userId := 1, photographerId := some 5, status := "confirmed",
              date := none, time := none, location := none, notes := none,
              package := none, additionalDetails := none } := by rfl
  exact ⟨hok, (h.2.1 _ hok).2.2⟩

/-- C5 counterexample: a review in the model's default state (visible,
unflagged, status 'pending', unmoderated) is not returned to its original
quadruple by flag-then-restore — restore forces status 'approved' and
`isModerated` true. -/
theorem flag_restore_roundtrip_fails_on_default :
    restoreReview (flagReview
        { userId := 1, photoId := 1, rating := 5, comment := "nice",
          isModerated := false, status := "pending",
          isVisible := true, needsReview := false })
      ≠ { userId := 1, photoId := 1, rating := 5, comment := "nice",
          isModerated := false, status := "pending",
          isVisible := true, needsReview := false } := by decide

/-- C5 amended: flag sets the fixed quadruple {hidden, pending-review,
status 'pending', unmoderated} in one atomic update and restore sets the fixed
quadruple {visible, no-review, status 'approved', moderated}; flag-then-restore
therefore always lands on the restored quadruple, which equals the starting
record exactly when that record already had the restored quadruple. -/
theorem flag_restore_lands_on_restored_quadruple :
    ∀ (r : Review) (p : Photo),
      flagReview r = { r with isVisible := false, needsReview := true,
                              status := "pending", isModerated := false }
      ∧ restoreReview (flagReview r)
          = { r with isVisible := true, needsReview := false,
                     status := "approved", isModerated := true }
      ∧ (restoreReview (flagReview r) = r
          ↔ (r.isVisible = true ∧ r.needsReview = false
             ∧ r.status = "approved" ∧ r.isModerated = true))
      ∧ flagPhoto p = { p with isVisible := false, needsReview := true,
                               status := "pending", isModerated := false }
      ∧ restorePhoto (flagPhoto p)
          = { p with isVisible := true, needsReview := false,
                     status := "approved", isModerated := true }
      ∧ (restorePhoto (flagPhoto p) = p
          ↔ (p.isVisible = true ∧ p.needsReview = false
             ∧ p.status = "approved" ∧ p.isModerated = true)) := by
  intro r p
  cases r
  cases p
  simp [flagReview, restoreReview, flagPhoto, restorePhoto]
  constructor <;> constructor <;> intro h <;> simp_all

/-- C8: a moderation request whose action is outside {delete, flag, restore}
or whose content kind is outside {review, photo} fails with the InvalidAction
error, leaves the stored tables unchanged, and its outcome does not depend on
the stored tables at all (no record is read). -/
theorem moderate_invalid_request_rejected :
    ∀ (store store2 : ContentStore) (id : Nat) (contentType action : String),
      (["delete", "flag", "restore"].contains action = false
       ∨ (contentType ≠ "review" ∧ contentType ≠ "photo")) →
      (∃ e, moderateContent store id contentType action = .error e)
      ∧ moderateRun store id contentType action = store
      ∧ moderateContent store id contentType action
          = moderateContent store2 id contentType action := by
  intro store store2 id ct act h
  rcases h with h | ⟨h1, h2⟩
  · obtain ⟨hd, hf, hr⟩ : act ≠ "delete" ∧ act ≠ "flag" ∧ act ≠ "restore" := by
      simpa [List.contains] using h
    refine ⟨⟨.badRequest "Action must be either delete, flag, or restore", ?_⟩, ?_, ?_⟩ <;>
      simp [moderateContent, moderateRun, List.contains, hd, hf, hr]
  · by_cases ha : (["delete", "flag", "restore"].contains act) = true
    · obtain had | haf | har : act = "delete" ∨ act = "flag" ∨ act = "restore" := by
        simpa [List.contains] using ha
      all_goals subst_vars
      all_goals refine ⟨⟨.badRequest "Content type must be either review or photo", ?_⟩, ?_, ?_⟩ <;>
        simp [moderateContent, moderateRun, h1, h2]
    · rw [Bool.not_eq_true] at ha
      obtain ⟨hd, hf, hr⟩ : act ≠ "delete" ∧ act ≠ "flag" ∧ act ≠ "restore" := by
        simpa [List.contains] using ha
      refine ⟨⟨.badRequest "Action must be either delete, flag, or restore", ?_⟩, ?_, ?_⟩ <;>
        simp [moderateContent, moderateRun, List.contains, hd, hf, hr]

/-- Witness for C8: the action 'approve' is rejected with the tables
untouched and without reading them. -/
theorem moderate_invalid_request_rejected_witness :
    (∃ e, moderateContent ⟨[], []⟩ 1 "review" "approve" = .error e)
    ∧ moderateRun ⟨[], []⟩ 1 "review" "approve" = ⟨[], []⟩
    ∧ moderateContent ⟨[], []⟩ 1 "review" "approve"
        = moderateContent ⟨[(1, { userId := 1, photoId := 1, rating := 5,
                                  comment := "x", isModerated := false,
                                  status := "pending", isVisible := true,
                                  needsReview := false })], []⟩ 1 "review" "approve" :=
  moderate_invalid_request_rejected ⟨[], []⟩
    ⟨[(1, { userId := 1, photoId := 1, rating := 5, comment := "x",
            isModerated := false, status := "pending", isVisible := true,
            needsReview := false })], []⟩ 1 "review" "approve" (Or.inl (by rfl))

/-- C9 counterexample: a review created from a plain body (rating and comment
only) carries the Review model's default status 'pending', not 'approved'. -/
theorem created_review_pending_counterexample :
    (createReview ⟨1, "client"⟩ 1 { rating := 5, comment := "great" }).status = "pending"
    ∧ (createReview ⟨1, "client"⟩ 1 { rating := 5, comment := "great" }).status ≠ "approved" := by
  exact ⟨rfl, by decide⟩

/-- C9 amended: newly created moderatable content starts visible and
unflagged (isVisible true, needsReview false), but its status is the model
default 'pending', not 'approved' — for a review whose request body does not
override the moderation columns, and for every successfully created photo. -/
theorem created_content_visible_unflagged_pending :
    ∀ (u : AuthUser) (photoId : Nat) (body : ReviewBody) (pb : PhotoBody)
      (url : String) (photo : Photo),
      (body.status = none → body.isVisible = none → body.needsReview = none →
        (createReview u photoId body).isVisible = true
        ∧ (createReview u photoId body).needsReview = false
        ∧ (createReview u photoId body).status = "pending")
      ∧ (createPhoto u true pb url = .ok photo →
          photo.isVisible = true ∧ photo.needsReview = false
          ∧ photo.status = "pending") := by
  intro u pid body pb url photo
  constructor
  · intro h1 h2 h3
    simp [createReview, h1, h2, h3]
  · intro h
    by_cases ht : (pb.title == "" || pb.category == "") = true
    · simp [createPhoto, ht] at h
    · rw [Bool.not_eq_true] at ht
      simp only [createPhoto, Bool.not_true, Bool.false_eq_true, if_false, ht] at h
      cases h
      exact ⟨rfl, rfl, rfl⟩

/-- Witness for C9: concrete review and photo creations are visible,
unflagged and pending. -/
theorem created_content_visible_unflagged_pending_witness :
    ((createReview ⟨1, "client"⟩ 1 { rating := 5, comment := "great" }).isVisible = true
     ∧ (createReview ⟨1, "client"⟩ 1 { rating := 5, comment := "great" }).needsReview = false
     ∧ (createReview ⟨1, "client"⟩ 1 { rating := 5, comment := "great" }).status = "pending")
    ∧ ({ title := "t", description := "", imageUrl := "u", category := "c",
         photographerId := 1, isModerated := false, status := "pending",
         isVisible := true, needsReview := false : Photo }.isVisible = true
       ∧ { title := "t", description := "", imageUrl := "u", category := "c",
           photographerId := 1, isModerated := false, status := "pending",
           isVisible := true, needsReview := false : Photo }.needsReview = false
       ∧ { title := "t", description := "", imageUrl := "u", category := "c",
           photographerId := 1, isModerated := false, status := "pending",
           isVisible := true, needsReview := false : Photo }.status = "pending") := by
  have h := created_content_visible_unflagged_pending ⟨1, "client"⟩ 1
      { rating := 5, comment := "great" } { title := "t", category := "c" } "u"
      { title := "t", description := "", imageUrl := "u", category := "c",
        photographerId := 1, isModerated := false, status := "pending",
        isVisible := true, needsReview := false }
  exact ⟨h.1 rfl rfl rfl, h.2 (by rfl)⟩

/-- C6 counterexample: an admin (id 2, role 'admin') calling the owner-path
update on a photo owned by photographer 1 is rejected Forbidden. -/
theorem admin_update_foreign_photo_forbidden :
    updatePhoto ⟨2, "admin"⟩
        (some { title := "t", description := "d", imageUrl := "u", category := "c",
                photographerId := 1, isModerated := false, status := "approved",
                isVisible := true, needsReview := false }) {}
      = .error (.forbidden "Not authorized to update this photo") := by rfl

/-- C6 amended: the owner-path update and delete of photos and reviews check
record ownership only — any caller whose id differs from the owner's,
admins included, is rejected Forbidden; an admin mutates content they do not
own only through the separate admin routes, e.g. moderateContent delete
removes any existing photo. -/
theorem owner_paths_reject_nonowner_even_admin :
    ∀ (u : AuthUser) (p : Photo) (pb : PhotoPatch) (r : Review) (rb : ReviewPatch)
      (store : ContentStore) (id : Nat),
      (p.photographerId ≠ u.id →
        updatePhoto u (some p) pb
          = .error (.forbidden "Not authorized to update this photo")
        ∧ deletePhoto u (some p)
          = .error (.forbidden "Not authorized to delete this photo"))
      ∧ (r.userId ≠ u.id →
        updateReview u (some r) rb
          = .error (.forbidden "Not authorized to update this review")
        ∧ deleteReview u (some r)
          = .error (.forbidden "Not authorized to delete this review"))
      ∧ (lookupById store.photos id = some p →
          moderateContent store id "photo" "delete"
            = .ok ({ store with photos := removeById store.photos id },
                   "photo has been deleteed successfully")) := by
  intro u p pb r rb store id
  refine ⟨fun hp => ?_, fun hr => ?_, fun hl => ?_⟩
  · constructor <;> simp [updatePhoto, deletePhoto, beq_iff_eq, hp]
  · constructor <;> simp [updateReview, deleteReview, beq_iff_eq, hr]
  · simp [moderateContent, hl, moderationMessage]

/-- Witness for C6: admin 2 is rejected on photographer 1's photo and client
1's review, while moderation delete removes the photo. -/
theorem owner_paths_reject_nonowner_even_admin_witness :
    updatePhoto ⟨2, "admin"⟩
        (some { title := "t", description := "d", imageUrl := "u", category := "c",
                photographerId := 1, isModerated := false, status := "approved",
                isVisible := true, needsReview := false }) {}
      = .error (.forbidden "Not authorized to update this photo")
    ∧ deleteReview ⟨2, "admin"⟩
        (some { userId := 1, photoId := 5, rating := 4, comment := "x",
                isModerated := false, status := "approved", isVisible := true,
                needsReview := false })
      = .error (.forbidden "Not authorized to delete this review")
    ∧ moderateContent
        ⟨[], [(5, { title := "t", description := "d", imageUrl := "u", category := "c",
                    photographerId := 1, isModerated := false, status := "approved",
                    isVisible := true, needsReview := false })]⟩ 5 "photo" "delete"
      = .ok (⟨[], []⟩, "photo has been deleteed successfully") := by
  have h := owner_paths_reject_nonowner_even_admin ⟨2, "admin"⟩
      { title := "t", description := "d", imageUrl := "u", category := "c",
        photographerId := 1, isModerated := false, status := "approved",
        isVisible := true, needsReview := false } {}
      { userId := 1, photoId := 5, rating := 4, comment := "x",
        isModerated := false, status := "approved", isVisible := true,
        needsReview := false } {}
      ⟨[], [(5, { title := "t", description := "d", imageUrl := "u", category := "c",
                  photographerId := 1, isModerated := false, status := "approved",
                  isVisible := true, needsReview := false })]⟩ 5
  refine ⟨(h.1 (by decide)).1, (h.2.1 (by decide)).2, ?_⟩
  have h3 := h.2.2 (by rfl)
  rw [h3]
  rfl

/-- C4: after any successful cancelBooking, a second cancelBooking by the
same caller succeeds with the 'already cancelled' indicator and returns the
identical record (idempotence); and cancelBooking of a completed booking by
an authorized non-admin caller is rejected. -/
theorem cancel_idempotent_and_completed_guarded :
    ∀ (u : AuthUser) (b b1 : Booking) (m1 : String),
      (cancelBooking u (some b) = .ok (b1, m1) →
        cancelBooking u (some b1) = .ok (b1, "Booking was already cancelled"))
      ∧ (b.status = "completed" → isAdminUser u = false →
          (isClientOf u b || isPhotographerOf u b) = true →
          cancelBooking u (some b)
            = .error (.badRequest "Cannot cancel a completed booking")) := by
  intro u b b1 m1
  constructor
  · intro h
    by_cases hauth : notAuthorized u b = true
    · simp [cancelBooking, hauth] at h
    · rw [Bool.not_eq_true] at hauth
      by_cases hcanc : b.status = "canceled"
      · have hfirst : cancelBooking u (some b)
            = .ok (b, "Booking was already cancelled") := by
          simp [cancelBooking, hauth, hcanc]
        rw [hfirst] at h
        cases h
        exact hfirst
      · by_cases hcomp : (b.status == "completed" && !isAdminUser u) = true
        · simp [cancelBooking, hauth, hcanc, hcomp] at h
        · have hfirst : cancelBooking u (some b)
              = .ok ({ b with status := "canceled" }, "Booking cancelled successfully") := by
            simp [cancelBooking, hauth, hcanc]
            intro hc
            rw [hc] at hcomp
            simp at hcomp
            simpa [isAdminUser] using hcomp
          rw [hfirst] at h
          cases h
          have hauth' : notAuthorized u { b with status := "canceled" } = false := hauth
          simp [cancelBooking, hauth']
  · intro hc hadm hauth
    have hor : isClientOf u b = true ∨ isPhotographerOf u b = true := by
      simpa using hauth
    have hna : notAuthorized u b = false := by
      rcases hor with h | h <;> simp [notAuthorized, h]
    have hnc : ¬ b.status = "canceled" := by
      rw [hc]
      decide
    have hcomp : (b.status == "completed" && !isAdminUser u) = true := by
      simp [hc, hadm]
    simp [cancelBooking, hna, hnc, hcomp]

/-- Witness for C4: client 1 cancels their pending booking, then cancels it
again and gets the already-cancelled success; cancelling a completed booking
as a non-admin fails. -/
theorem cancel_idempotent_and_completed_guarded_witness :
    cancelBooking ⟨1, "client"⟩
        (some { userId := 1, photographerId := none, status := "canceled",
                date := none, time := none, location := none, notes := none,
                package := none, additionalDetails := none })
      = .ok ({ userId := 1, photographerId := none, status := "canceled",
               date := none, time := none, location := none, notes := none,
               package := none, additionalDetails := none },
             "Booking was already cancelled")
    ∧ cancelBooking ⟨1, "client"⟩
        (some { userId := 1, photographerId := none, status := "completed",
                date := none, time := none, location := none, notes := none,
                package := none, additionalDetails := none })
      = .error (.badRequest "Cannot cancel a completed booking") := by
  have h1 := (cancel_idempotent_and_completed_guarded ⟨1, "client"⟩
      { userId := 1, photographerId := none, status := "pending",
        date := none, time := none, location := none, notes := none,
        package := none, additionalDetails := none }
      { userId := 1, photographerId := none, status := "canceled",
        date := none, time := none, location := none, notes := none,
        package := none, additionalDetails := none }
      "Booking cancelled successfully").1 (by rfl)
  have h2 := (cancel_idempotent_and_completed_guarded ⟨1, "client"⟩
      { userId := 1, photographerId := none, status := "completed",
        date := none, time := none, location := none, notes := none,
        package := none, additionalDetails := none }
      { userId := 1, photographerId := none, status := "completed",
        date := none, time := none, location := none, notes := none,
        package := none, additionalDetails := none }
      "x").2 rfl (by decide) (by decide)
  exact ⟨h1, h2⟩

/-- C10: the Booking model's status ENUM contains only the double-l
'cancelled', while cancelBooking compares and writes the single-l 'canceled'
(which updateBooking's validStatuses also lists); hence for every stored
booking whose status is an enum value the already-cancelled branch cannot
fire — any successful cancel takes the update branch and writes a status
outside the enum. -/
theorem cancel_spelling_mismatch :
    (bookingStatusEnum.contains "canceled" = false
     ∧ bookingStatusEnum.contains "cancelled" = true
     ∧ validStatuses.contains "canceled" = true)
    ∧ ∀ (u : AuthUser) (b b' : Booking) (m : String),
        b.status ∈ bookingStatusEnum →
        cancelBooking u (some b) = .ok (b', m) →
        m = "Booking cancelled successfully" ∧ b'.status = "canceled"
        ∧ bookingStatusEnum.contains b'.status = false := by
  refine ⟨⟨by rfl, by rfl, by rfl⟩, ?_⟩
  intro u b b' m hmem h
  have hne : ¬ b.status = "canceled" := by
    simp [bookingStatusEnum] at hmem
    rcases hmem with h1 | h1 | h1 | h1 <;> (rw [h1]; decide)
  by_cases hauth : notAuthorized u b = true
  · simp [cancelBooking, hauth] at h
  · rw [Bool.not_eq_true] at hauth
    by_cases hcomp : (b.status == "completed" && !isAdminUser u) = true
    · simp [cancelBooking, hauth, hne, hcomp] at h
    · have hfirst : cancelBooking u (some b)
          = .ok ({ b with status := "canceled" }, "Booking cancelled successfully") := by
        simp [cancelBooking, hauth, hne]
        intro hc
        rw [hc] at hcomp
        simp at hcomp
        simpa [isAdminUser] using hcomp
      rw [hfirst] at h
      cases h
      exact ⟨rfl, rfl, by rfl⟩

/-- Witness for C10: cancelling a pending booking writes the single-l
'canceled', which is not in the model enum. -/
theorem cancel_spelling_mismatch_witness :
    ({ userId := 1, photographerId := none, status := "canceled", date := none,
       time := none, location := none, notes := none, package := none,
       additionalDetails := none } : Booking).status = "canceled"
    ∧ bookingStatusEnum.contains
        ({ userId := 1, photographerId := none, status := "canceled", date := none,
           time := none, location := none, notes := none, package := none,
           additionalDetails := none } : Booking).status = false := by
  have h := cancel_spelling_mismatch.2 ⟨1, "client"⟩
      { userId := 1, photographerId := none, status := "pending", date := none,
        time := none, location := none, notes := none, package := none,
        additionalDetails := none }
      { userId := 1, photographerId := none, status := "canceled", date := none,
        time := none, location := none, notes := none, package := none,
        additionalDetails := none }
      "Booking cancelled successfully" (by decide) (by rfl)
  exact ⟨h.2.1, h.2.2⟩

/-- A successful createBooking always produces a 'pending' row. -/
theorem createBooking_ok_status :
    ∀ (users : List StoredUser) (u : AuthUser) (body : BookingPatch) (b : Booking),
      createBooking users u body = .ok b → b.status = "pending" := by
  intro users u body b h
  cases hf : findPhotographer users body.photographerId with
  | none => simp [createBooking, hf] at h
  | some w =>
    by_cases hself : (body.photographerId == some u.id) = true
    · simp [createBooking, hf, hself] at h
    · rw [Bool.not_eq_true] at hself
      simp [createBooking, hf, hself] at h
      rw [← h]

/-- A successful acceptBooking always produces a 'confirmed' row. -/
theorem acceptBooking_ok_status :
    ∀ (u : AuthUser) (st : Option Booking) (d : Option String) (b : Booking),
      acceptBooking u st d = .ok b → b.status = "confirmed" := by
  intro u st d b h
  cases st with
  | none => simp [acceptBooking] at h
  | some b0 =>
    by_cases hass : natTruthy b0.photographerId = true
    · simp [acceptBooking, hass] at h
    · rw [Bool.not_eq_true] at hass
      by_cases hd : strTruthy d = true
      · simp [acceptBooking, hass, hd] at h
        rw [← h]
      · rw [Bool.not_eq_true] at hd
        simp [acceptBooking, hass, hd] at h
        rw [← h]

/-- A successful assignBooking always produces a 'confirmed' row. -/
theorem assignBooking_ok_status :
    ∀ (st : Option Booking) (pid : Option Nat) (b : Booking),
      assignBooking st pid = .ok b → b.status = "confirmed" := by
  intro st pid b h
  cases st with
  | none => simp [assignBooking] at h
  | some b0 =>
    simp [assignBooking] at h
    rw [← h]

/-- A successful cancelBooking always returns a 'canceled' row. -/
theorem cancelBooking_ok_status :
    ∀ (u : AuthUser) (st : Option Booking) (b : Booking) (m : String),
      cancelBooking u st = .ok (b, m) → b.status = "canceled" := by
  intro u st b m h
  cases st with
  | none => simp [cancelBooking] at h
  | some b0 =>
    by_cases hauth : notAuthorized u b0 = true
    · simp [cancelBooking, hauth] at h
    · rw [Bool.not_eq_true] at hauth
      by_cases hcanc : (b0.status == "canceled") = true
      · simp [cancelBooking, hauth, hcanc] at h
        rw [← h.1]
        exact beq_iff_eq.1 hcanc
      · rw [Bool.not_eq_true] at hcanc
        by_cases hcomp : (b0.status == "completed" && !isAdminUser u) = true
        · simp [cancelBooking, hauth, hcanc, hcomp] at h
        · rw [Bool.not_eq_true] at hcomp
          simp [cancelBooking, hauth, hcanc, hcomp] at h
          rw [← h.1]

/-- A successful updateBooking yields a 'completed' row only when the row
already was 'completed' (the status key absent or filtered away) or the row
was 'confirmed' (the guarded explicit transition). -/
theorem updateBooking_ok_completed_source :
    ∀ (u : AuthUser) (b b' : Booking) (body : BookingPatch),
      updateBooking u (some b) body = .ok b' → b'.status = "completed" →
      b.status = "completed" ∨ b.status = "confirmed" := by
  intro u b b' body h hb'
  simp only [updateBooking] at h
  split_ifs at h with hauth hval hg3 hg4 hcl hph had <;> cases h
  · exact Or.inl (by simpa [applyPatch, clientFilter] using hb')
  · rcases hsv : body.status with _ | v
    · exact Or.inl (by simpa [applyPatch, photographerFilter, hsv] using hb')
    · have hv : v = "completed" := by
        simpa [applyPatch, photographerFilter, hsv] using hb'
      rw [hv] at hsv
      rw [hsv] at hg4
      simp at hg4
      exact Or.inr hg4
  · rcases hsv : body.status with _ | v
    · exact Or.inl (by simpa [applyPatch, hsv] using hb')
    · have hv : v = "completed" := by
        simpa [applyPatch, hsv] using hb'
      rw [hv] at hsv
      rw [hsv] at hg4
      simp at hg4
      exact Or.inr hg4
  · exact Or.inl (by simpa [applyPatch] using hb')

/-- updateBooking rejects a requested 'completed' status whenever the current
status is not 'confirmed', for every caller, admins included. -/
theorem updateBooking_completed_needs_confirmed :
    ∀ (u : AuthUser) (b : Booking) (body : BookingPatch),
      body.status = some "completed" → b.status ≠ "confirmed" →
      ∃ e, updateBooking u (some b) body = .error e := by
  intro u b body hs hne
  by_cases hauth : notAuthorized u b = true
  · exact ⟨.forbidden "Not authorized to update this booking",
      by simp [updateBooking, hauth]⟩
  · rw [Bool.not_eq_true] at hauth
    by_cases hrole : (isPhotographerOf u b || isAdminUser u) = true
    · refine ⟨.badRequest "Only confirmed bookings can be marked as completed", ?_⟩
      simp [updateBooking, hauth, hs, strTruthy, validStatuses, List.contains,
        hrole, hne]
    · refine ⟨.forbidden "Only photographers and admins can mark bookings as completed", ?_⟩
      rw [Bool.not_eq_true] at hrole
      simp [updateBooking, hauth, hs, strTruthy, validStatuses, List.contains, hrole]

/-- No single request other than the admin status-change route can produce a
'completed' row except out of a row that was already 'completed' or was
'confirmed'. -/
theorem stepBooking_completed_source :
    ∀ (users : List StoredUser) (st : Option Booking) (op : BookingOp),
      op.isSetStatus = false →
      statusIs (stepBooking users st op) "completed" = true →
      statusIs st "completed" = true ∨ statusIs st "confirmed" = true := by
  intro users st op hop h
  cases op with
  | create u body =>
    cases hc : createBooking users u body with
    | ok b =>
      rw [show stepBooking users st (.create u body) = some b by
        simp [stepBooking, hc]] at h
      have := createBooking_ok_status users u body b hc
      simp [statusIs, this] at h
    | error e =>
      rw [show stepBooking users st (.create u body) = st by
        simp [stepBooking, hc]] at h
      exact Or.inl h
  | update u body =>
    cases st with
    | none =>
      simp [stepBooking, updateBooking, statusIs] at h
    | some b =>
      cases hc : updateBooking u (some b) body with
      | ok b' =>
        rw [show stepBooking users (some b) (.update u body) = some b' by
          simp [stepBooking, hc]] at h
        simp only [statusIs, beq_iff_eq] at h
        rcases updateBooking_ok_completed_source u b b' body hc h with h1 | h1
        · exact Or.inl (by simp [statusIs, h1])
        · exact Or.inr (by simp [statusIs, h1])
      | error e =>
        rw [show stepBooking users (some b) (.update u body) = some b by
          simp [stepBooking, hc]] at h
        exact Or.inl h
  | accept u d =>
    cases hc : acceptBooking u st d with
    | ok b =>
      rw [show stepBooking users st (.accept u d) = some b by
        simp [stepBooking, hc]] at h
      have := acceptBooking_ok_status u st d b hc
      simp [statusIs, this] at h
    | error e =>
      rw [show stepBooking users st (.accept u d) = st by
        simp [stepBooking, hc]] at h
      exact Or.inl h
  | assign pid =>
    cases hc : assignBooking st pid with
    | ok b =>
      rw [show stepBooking users st (.assign pid) = some b by
        simp [stepBooking, hc]] at h
      have := assignBooking_ok_status st pid b hc
      simp [statusIs, this] at h
    | error e =>
      rw [show stepBooking users st (.assign pid) = st by
        simp [stepBooking, hc]] at h
      exact Or.inl h
  | cancel u =>
    cases hc : cancelBooking u st with
    | ok bm =>
      rw [show stepBooking users st (.cancel u) = some bm.1 by
        simp [stepBooking, hc]] at h
      have := cancelBooking_ok_status u st bm.1 bm.2 (by rw [← hc])
      simp [statusIs, this] at h
    | error e =>
      rw [show stepBooking users st (.cancel u) = st by
        simp [stepBooking, hc]] at h
      exact Or.inl h
  | setStatus s => simp [BookingOp.isSetStatus] at hop

/-- Along any run avoiding the admin status-change route, a 'completed' final
state means the run started 'completed' or some prefix of it ended
'confirmed'. -/
theorem runOps_completed_confirmed_aux :
    ∀ (ops : List BookingOp) (users : List StoredUser) (st : Option Booking),
      (∀ op ∈ ops, op.isSetStatus = false) →
      statusIs (runOps users st ops) "completed" = true →
      statusIs st "completed" = true
      ∨ ∃ pre post, ops = pre ++ post
          ∧ statusIs (runOps users st pre) "confirmed" = true := by
  intro ops
  induction ops with
  | nil =>
    intro users st hops h
    exact Or.inl h
  | cons op ops ih =>
    intro users st hops h
    have hop : op.isSetStatus = false := hops op (List.mem_cons_self op ops)
    have hrest : ∀ o ∈ ops, o.isSetStatus = false :=
      fun o ho => hops o (List.mem_cons_of_mem op ho)
    have h' := ih users (stepBooking users st op) hrest h
    rcases h' with hcomp | ⟨pre, post, heq, hconf⟩
    · rcases stepBooking_completed_source users st op hop hcomp with hc | hc
      · exact Or.inl hc
      · exact Or.inr ⟨[], op :: ops, rfl, hc⟩
    · exact Or.inr ⟨op :: pre, post, by rw [heq]; rfl, hconf⟩

/-- C1 counterexample: via the admin status-change route, a freshly created
pending booking is moved straight to 'completed'; no state of the run was
ever 'confirmed'. -/
theorem admin_status_route_reaches_completed_unconfirmed :
    statusIs (runOps [⟨7, "photographer"⟩] none
        [.create ⟨1, "client"⟩ { photographerId := some 7 },
         .setStatus "completed"]) "completed" = true
    ∧ (traceStates [⟨7, "photographer"⟩] none
        [.create ⟨1, "client"⟩ { photographerId := some 7 },
         .setStatus "completed"]).all
          (fun st => !(statusIs st "confirmed")) = true := by
  exact ⟨by decide, by decide⟩

/-- C1 amended: updateBooking rejects a requested 'completed' whenever the
current status is not 'confirmed', for every role including admin; and along
any sequence of create/update/accept/assign/cancel requests that avoids the
admin status-change route, a 'completed' state is reached only after some
prefix of the run ended in 'confirmed'.  The admin status-change route
(PATCH /:id/status) breaks the invariant, as the counterexample shows. -/
theorem completed_only_from_confirmed_outside_status_route :
    ∀ (users : List StoredUser) (u : AuthUser) (b : Booking) (body : BookingPatch)
      (ops : List BookingOp),
      (body.status = some "completed" → b.status ≠ "confirmed" →
        ∃ e, updateBooking u (some b) body = .error e)
      ∧ ((∀ op ∈ ops, op.isSetStatus = false) →
          statusIs (runOps users none ops) "completed" = true →
          ∃ pre post, ops = pre ++ post
            ∧ statusIs (runOps users none pre) "confirmed" = true) := by
  intro users u b body ops
  refine ⟨updateBooking_completed_needs_confirmed u b body, fun hops h => ?_⟩
  rcases runOps_completed_confirmed_aux ops users none hops h with hc | hc
  · simp [statusIs] at hc
  · exact hc

/-- Witness for C1: even a photographer assignee cannot complete a pending
booking, and the legitimate pending→confirmed→completed run has a confirmed
prefix. -/
theorem completed_only_from_confirmed_outside_status_route_witness :
    (∃ e, updateBooking ⟨9, "photographer"⟩
        (some { userId := 1, photographerId := some 9, status := "pending",
                date := none, time := none, location := none, notes := none,
                package := none, additionalDetails := none })
        { status := some "completed" } = .error e)
    ∧ ∃ pre post,
        ([.create ⟨1, "client"⟩ { photographerId := some 7 },
          .update ⟨7, "photographer"⟩ { status := some "confirmed" },
          .update ⟨7, "photographer"⟩ { status := some "completed" }] : List BookingOp)
          = pre ++ post
        ∧ statusIs (runOps [⟨7, "photographer"⟩] none pre) "confirmed" = true := by
  constructor
  · exact (completed_only_from_confirmed_outside_status_route [] ⟨9, "photographer"⟩
      { userId := 1, photographerId := some 9, status := "pending",
        date := none, time := none, location := none, notes := none,
        package := none, additionalDetails := none }
      { status := some "completed" } []).1 rfl (by decide)
  · exact (completed_only_from_confirmed_outside_status_route [⟨7, "photographer"⟩]
      ⟨9, "photographer"⟩
      { userId := 1, photographerId := some 9, status := "pending",
        date := none, time := none, location := none, notes := none,
        package := none, additionalDetails := none }
      { status := some "completed" }
      [.create ⟨1, "client"⟩ { photographerId := some 7 },
       .update ⟨7, "photographer"⟩ { status := some "confirmed" },
       .update ⟨7, "photographer"⟩ { status := some "completed" }]).2
      (by decide) (by decide)

/-- C2 counterexample: a client's update carrying a disallowed status target
'confirmed' together with an allowed field succeeds — the status is silently
dropped and the location applied — instead of the whole request being
rejected. -/
theorem client_disallowed_status_silently_dropped :
    updateBooking ⟨1, "client"⟩
        (some { userId := 1, photographerId := some 7, status := "pending",
                date := none, time := none, location := some "Old", notes := none,
                package := none, additionalDetails := none })
        { status := some "confirmed", location := some "New Venue" }
      = .ok { userId := 1, photographerId := some 7, status := "pending",
              date := none, time := none, location := some "New Venue", notes := none,
              package := none, additionalDetails := none } := by rfl

/-- C2 amended: requested fields outside the caller's allowed set are
silently dropped (a client's update keeps status, time and photographerId
unchanged and applies the rest), and a client-requested status 'confirmed'
is itself silently dropped rather than rejected; the only hard status
rejections are a value outside validStatuses, a 'completed' request by a
caller who is neither assignee photographer nor admin, and a 'completed'
request on a booking that is not currently 'confirmed'. -/
theorem update_field_drop_and_status_rejections :
    ∀ (u : AuthUser) (b : Booking) (body : BookingPatch),
      (isClientOf u b = true → isAdminUser u = false →
        body.status = some "confirmed" →
        updateBooking u (some b) body = .ok (applyPatch b (clientFilter body))
        ∧ (applyPatch b (clientFilter body)).status = b.status
        ∧ (applyPatch b (clientFilter body)).time = b.time
        ∧ (applyPatch b (clientFilter body)).photographerId = b.photographerId)
      ∧ (∀ v, body.status = some v → v ≠ "" → validStatuses.contains v = false →
          ∃ e, updateBooking u (some b) body = .error e)
      ∧ (body.status = some "completed" → isPhotographerOf u b = false →
          isAdminUser u = false →
          ∃ e, updateBooking u (some b) body = .error e)
      ∧ (body.status = some "completed" → b.status ≠ "confirmed" →
          ∃ e, updateBooking u (some b) body = .error e) := by
  intro u b body
  refine ⟨fun hcl hadm hs => ?_, fun v hs hvne hvcont => ?_, fun hs hph hadm => ?_,
    updateBooking_completed_needs_confirmed u b body⟩
  · have hna : ¬ (notAuthorized u b = true) := by simp [notAuthorized, hcl]
    have h2 : ¬ ((strTruthy body.status
        && !(validStatuses.contains (body.status.getD ""))) = true) := by
      rw [hs]; decide
    have h3 : ¬ ((body.status == some "completed"
        && !(isPhotographerOf u b || isAdminUser u)) = true) := by
      rw [hs]; simp
    have h4 : ¬ ((body.status == some "completed"
        && !(b.status == "confirmed")) = true) := by
      rw [hs]; simp
    have hcd : (isClientOf u b && !isAdminUser u) = true := by simp [hcl, hadm]
    refine ⟨?_, ?_, ?_, ?_⟩
    · simp only [updateBooking]
      rw [if_neg hna, if_neg h2, if_neg h3, if_neg h4, if_pos hcd]
    · simp [applyPatch, clientFilter]
    · simp [applyPatch, clientFilter, updField]
    · simp [applyPatch, clientFilter]
  · by_cases hauth : notAuthorized u b = true
    · exact ⟨.forbidden "Not authorized to update this booking",
        by simp [updateBooking, hauth]⟩
    · refine ⟨.badRequest "Invalid status value", ?_⟩
      obtain ⟨hv1, hv2, hv3, hv4⟩ :
          v ≠ "pending" ∧ v ≠ "confirmed" ∧ v ≠ "completed" ∧ v ≠ "canceled" := by
        simpa [validStatuses, List.contains] using hvcont
      have h2 : (strTruthy body.status
          && !(validStatuses.contains (body.status.getD ""))) = true := by
        rw [hs]
        simp [strTruthy, validStatuses, List.contains, hvne, hv1, hv2, hv3, hv4]
      simp only [updateBooking]
      rw [if_neg hauth, if_pos h2]
  · by_cases hauth : notAuthorized u b = true
    · exact ⟨.forbidden "Not authorized to update this booking",
        by simp [updateBooking, hauth]⟩
    · refine ⟨.forbidden "Only photographers and admins can mark bookings as completed", ?_⟩
      have h2 : ¬ ((strTruthy body.status
          && !(validStatuses.contains (body.status.getD ""))) = true) := by
        rw [hs]; decide
      have h3 : (body.status == some "completed"
          && !(isPhotographerOf u b || isAdminUser u)) = true := by
        rw [hs]; simp [hph, hadm]
      simp only [updateBooking]
      rw [if_neg hauth, if_neg h2, if_pos h3]

/-- Witness for C2: client 1's 'confirmed' is dropped while location is
applied; status 'weird' is hard-rejected; client 1's 'completed' is
hard-rejected; photographer 7's 'completed' on a pending booking is
hard-rejected. -/
theorem update_field_drop_and_status_rejections_witness :
    (updateBooking ⟨1, "client"⟩
        (some { userId := 1, photographerId := some 7, status := "pending",
                date := none, time := none, location := some "Old", notes := none,
                package := none, additionalDetails := none })
        { status := some "confirmed", location := some "New Venue" }
      = .ok (applyPatch
          { userId := 1, photographerId := some 7, status := "pending",
            date := none, time := none, location := some "Old", notes := none,
            package := none, additionalDetails := none }
          (clientFilter { status := some "confirmed", location := some "New Venue" })))
    ∧ (∃ e, updateBooking ⟨1, "client"⟩
        (some { userId := 1, photographerId := some 7, status := "pending",
                date := none, time := none, location := some "Old", notes := none,
                package := none, additionalDetails := none })
        { status := some "weird" } = .error e)
    ∧ (∃ e, updateBooking ⟨1, "client"⟩
        (some { userId := 1, photographerId := some 7, status := "pending",
                date := none, time := none, location := some "Old", notes := none,
                package := none, additionalDetails := none })
        { status := some "completed" } = .error e)
    ∧ (∃ e, updateBooking ⟨7, "photographer"⟩
        (some { userId := 1, photographerId := some 7, status := "pending",
                date := none, time := none, location := some "Old", notes := none,
                package := none, additionalDetails := none })
        { status := some "completed" } = .error e) := by
  refine ⟨?_, ?_, ?_, ?_⟩
  · exact ((update_field_drop_and_status_rejections ⟨1, "client"⟩
      { userId := 1, photographerId := some 7, status := "pending",
        date := none, time := none, location := some "Old", notes := none,
        package := none, additionalDetails := none }
      { status := some "confirmed", location := some "New Venue" }).1
      (by decide) (by decide) rfl).1
  · exact (update_field_drop_and_status_rejections ⟨1, "client"⟩
      { userId := 1, photographerId := some 7, status := "pending",
        date := none, time := none, location := some "Old", notes := none,
        package := none, additionalDetails := none }
      { status := some "weird" }).2.1 "weird" rfl (by decide) (by decide)
  · exact (update_field_drop_and_status_rejections ⟨1, "client"⟩
      { userId := 1, photographerId := some 7, status := "pending",
        date := none, time := none, location := some "Old", notes := none,
        package := none, additionalDetails := none }
      { status := some "completed" }).2.2.1 rfl (by decide) (by decide)
  · exact (update_field_drop_and_status_rejections ⟨7, "photographer"⟩
      { userId := 1, photographerId := some 7, status := "pending",
        date := none, time := none, location := some "Old", notes := none,
        package := none, additionalDetails := none }
      { status := some "completed" }).2.2.2 rfl (by decide)

end PhotoShowcase
